import Mathlib

/-!
Verification of the btc-handshake repository.

This file is a shallow embedding of the handshake engine found in
`src/types.rs`, `src/chain.rs` and `src/main.rs`, together with theorems
settling the specification claims about it.  Concurrency is embedded by
making the nondeterministic scheduler resolution explicit: each task's
`select!` loop becomes a function over the list of branch outcomes it
observes, in arrival order.  Real-time values (`Instant` timestamps) are
outside the embedding and do not influence any claim.
-/

namespace BtcHS

/-- Error type of the engine, from `types.rs` (`HSError`). -/
structure HSError where
  err_message : String
deriving DecidableEq

/-- Direction tag of a protocol event, from `types.rs` (`EventDirection`). -/
inductive EventDirection
  | IN
  | OUT
deriving DecidableEq

/-- Protocol event, from `types.rs` (`Event`).  The `Instant` timestamp field
of the source struct is real time and is omitted; no claim depends on it. -/
structure Event where
  name : String
  direction : EventDirection
  data_pairs : List (String × String)
deriving DecidableEq

/-- Constructor from `types.rs` (`Event::new`): fresh event, no data pairs. -/
def Event.new (name : String) (direction : EventDirection) : Event :=
  { name := name, direction := direction, data_pairs := [] }

/-- Append one key/value attribute, from `types.rs` (`Event::set_pair`). -/
def Event.set_pair (e : Event) (key val : String) : Event :=
  { e with data_pairs := e.data_pairs ++ [(key, val)] }

/-- Event log of one handshake attempt, from `types.rs` (`EventChain`). -/
structure EventChain where
  id : String
  complete : Bool
  events : List Event
deriving DecidableEq

/-- Constructor from `types.rs` (`EventChain::new`). -/
def EventChain.new (id : String) : EventChain :=
  { id := id, complete := false, events := [] }

/-- Append an event, from `types.rs` (`EventChain::add`). -/
def EventChain.add (c : EventChain) (e : Event) : EventChain :=
  { c with events := c.events ++ [e] }

/-- Number of recorded events, from `types.rs` (`EventChain::len`). -/
def EventChain.len (c : EventChain) : Nat :=
  c.events.length

/-- Set the completion flag, from `types.rs` (`EventChain::mark_as_complete`). -/
def EventChain.mark_as_complete (c : EventChain) : EventChain :=
  { c with complete := true }

/-- Completion flag accessor, from `types.rs` (`EventChain::is_complete`). -/
def EventChain.is_complete (c : EventChain) : Bool :=
  c.complete

/-- Constant from `chain.rs`: `EXPECTED_HANDSHAKE_MESSAGES = 4`. -/
def EXPECTED_HANDSHAKE_MESSAGES : Nat := 4

/-- Constant from `chain.rs`: `TIMEOUT_MILLISEC = 1000`. -/
def TIMEOUT_MILLISEC : Nat := 1000

/-! ### The Event Chain Recorder task (`chain.rs` lines 39-58)

The recorder loop `select!`s between receiving an event on `ev_rx` and
receiving the shutdown broadcast.  One loop iteration that received an event
appends it and then, if the chain length equals `EXPECTED_HANDSHAKE_MESSAGES`,
marks the chain complete and fires the shutdown broadcast (that send cannot
fail: the recorder itself holds a subscribed receiver).  A shutdown receipt
returns the chain (`Ok`) or, when the broadcast channel itself erred, the
converted error. -/

/-- One resolved `select!` arm of the recorder loop: either an event arrived
on `ev_rx`, or the shutdown receiver completed (`ok` false means the
broadcast receive returned an error). -/
inductive RecorderIn
  | ev (e : Event)
  | shutdown (ok : Bool)
deriving DecidableEq

/-- Body of one event-arm iteration of the recorder loop (`chain.rs` 43-45
and 53-56): append the event, then mark complete when the count reaches
`EXPECTED_HANDSHAKE_MESSAGES`. -/
def record_step (c : EventChain) (e : Event) : EventChain :=
  let c1 := c.add e
  if c1.len = EXPECTED_HANDSHAKE_MESSAGES then c1.mark_as_complete else c1

/-- Fold of `record_step` over a list of received events. -/
def record_events (c : EventChain) : List Event → EventChain
  | [] => c
  | e :: rest => record_events (record_step c e) rest

/-- The recorder task's loop over the arrival-ordered branch outcomes.
`none` means the input trace ended with the task still waiting; `some r`
is the task's return value (`chain.rs` 41-57). -/
def recorderLoop (c : EventChain) : List RecorderIn → Option (Except HSError EventChain)
  | [] => none
  | RecorderIn.ev e :: rest => recorderLoop (record_step c e) rest
  | RecorderIn.shutdown ok :: _ =>
      some (if ok then Except.ok c else Except.error { err_message := "channel closed" })

lemma recorderLoop_map_ev (c : EventChain) (evs : List Event) (rest : List RecorderIn) :
    recorderLoop c (evs.map RecorderIn.ev ++ rest) = recorderLoop (record_events c evs) rest := by
  induction evs generalizing c with
  | nil => rfl
  | cons e tl ih => simp [recorderLoop, record_events, ih]

lemma record_step_id (c : EventChain) (e : Event) : (record_step c e).id = c.id := by
  unfold record_step EventChain.add EventChain.mark_as_complete
  dsimp only
  split <;> rfl

lemma record_step_events (c : EventChain) (e : Event) :
    (record_step c e).events = c.events ++ [e] := by
  unfold record_step EventChain.add EventChain.mark_as_complete
  dsimp only
  split <;> rfl

lemma record_step_complete (c : EventChain) (e : Event)
    (h : c.complete = decide (4 ≤ c.len)) :
    (record_step c e).complete = decide (4 ≤ c.len + 1) := by
  have hlen : (c.add e).len = c.len + 1 := by
    simp [EventChain.add, EventChain.len]
  unfold record_step EXPECTED_HANDSHAKE_MESSAGES
  dsimp only
  rw [hlen]
  by_cases h4 : c.len + 1 = 4
  · simp [h4, EventChain.mark_as_complete]
  · have hc : (c.add e).complete = c.complete := by simp [EventChain.add]
    simp only [h4, if_false]
    rw [hc, h]
    exact decide_eq_decide.mpr (by omega)

lemma record_events_id (c : EventChain) (evs : List Event) :
    (record_events c evs).id = c.id := by
  induction evs generalizing c with
  | nil => rfl
  | cons e tl ih => rw [record_events, ih, record_step_id]

lemma record_events_events (c : EventChain) (evs : List Event) :
    (record_events c evs).events = c.events ++ evs := by
  induction evs generalizing c with
  | nil => simp [record_events]
  | cons e tl ih => rw [record_events, ih, record_step_events]; simp

lemma record_step_len (c : EventChain) (e : Event) :
    (record_step c e).len = c.len + 1 := by
  unfold EventChain.len
  rw [record_step_events]
  simp

lemma record_events_complete (c : EventChain) (evs : List Event)
    (h : c.complete = decide (4 ≤ c.len)) :
    (record_events c evs).complete = decide (4 ≤ c.len + evs.length) := by
  induction evs generalizing c with
  | nil => simpa using h
  | cons e tl ih =>
      have hstep : (record_step c e).complete = decide (4 ≤ (record_step c e).len) := by
        rw [record_step_len]
        exact record_step_complete c e h
      rw [record_events, ih _ hstep, record_step_len]
      simp [Nat.add_comm, Nat.add_assoc, Nat.add_left_comm]

/-- Claim C1: in every run of the Recorder task the EventChain's completion
flag is true exactly when the recorded event count has reached
`EXPECTED_HANDSHAKE_MESSAGES` (so it becomes true at the append that makes
the count exactly 4), the chain records every received event, and a
completed handshake run (the four handshake events followed by the
self-fired shutdown) returns an EventChain with exactly 4 events and the
completion flag true. -/
theorem C1_recorder_completion (i : String) (evs : List Event) :
    ((record_events (EventChain.new i) evs).complete = true ↔ 4 ≤ evs.length) ∧
    (record_events (EventChain.new i) evs).events.length = evs.length ∧
    (evs.length = EXPECTED_HANDSHAKE_MESSAGES →
      recorderLoop (EventChain.new i) (evs.map RecorderIn.ev ++ [RecorderIn.shutdown true])
        = some (Except.ok { id := i, complete := true, events := evs })) := by
  have hc0 : (EventChain.new i).complete = decide (4 ≤ (EventChain.new i).len) := by rfl
  have hcomp := record_events_complete (EventChain.new i) evs hc0
  have hlen0 : (EventChain.new i).len = 0 := rfl
  rw [hlen0, Nat.zero_add] at hcomp
  have hevents : (record_events (EventChain.new i) evs).events = evs := by
    rw [record_events_events]
    rfl
  have hid := record_events_id (EventChain.new i) evs
  refine ⟨?_, ?_, ?_⟩
  · rw [hcomp]
    simp
  · rw [hevents]
  · intro h4
    rw [recorderLoop_map_ev]
    have hchain : record_events (EventChain.new i) evs
        = { id := i, complete := true, events := evs } := by
      rcases hrec : record_events (EventChain.new i) evs with ⟨cid, ccomp, cevs⟩
      rw [hrec] at hid hevents hcomp
      simp only at hid hevents hcomp
      rw [EventChain.mk.injEq]
      refine ⟨hid, ?_, hevents⟩
      rw [hcomp, h4]
      rfl
    rw [hchain]
    rfl

/-- Witness for C1 at the concrete four-event handshake trace. -/
theorem C1_recorder_completion_witness :
    recorderLoop (EventChain.new "peer")
        ([Event.new "version" EventDirection.OUT,
          Event.new "version" EventDirection.IN,
          Event.new "verack" EventDirection.OUT,
          Event.new "verack" EventDirection.IN].map RecorderIn.ev
          ++ [RecorderIn.shutdown true])
      = some (Except.ok
          { id := "peer", complete := true,
            events := [Event.new "version" EventDirection.OUT,
              Event.new "version" EventDirection.IN,
              Event.new "verack" EventDirection.OUT,
              Event.new "verack" EventDirection.IN] }) :=
  (C1_recorder_completion "peer" _).2.2 rfl

/-! ### The Outbound Writer task (`chain.rs` lines 73-91)

The writer loop `select!`s between `msg_rx.recv()` (pattern `Some(msg)`) and
the shutdown broadcast receive.  When every sender of the outbound queue is
dropped, `msg_rx.recv()` resolves to `None`: the `Some(msg)` pattern fails,
so tokio merely disables that branch, and the loop keeps waiting on the
remaining shutdown branch.  On a completed shutdown receive the writer shuts
the write half down once and returns `Ok`/`Err` according to the received
value. -/

/-- One resolved `select!` arm observed by the writer loop. -/
inductive WriterIn
  | msg
  | queueClosed
  | shutdownOk
  | shutdownErr
deriving DecidableEq

/-- True exactly on the shutdown-branch outcomes. -/
def WriterIn.isShutdown : WriterIn → Bool
  | WriterIn.shutdownOk => true
  | WriterIn.shutdownErr => true
  | _ => false

/-- Final state of the writer task: how many times it shut the write half
down, and whether it returned `Ok`. -/
structure WriterExit where
  cleanups : Nat
  succeeded : Bool
deriving DecidableEq

/-- Writer loop over the arrival-ordered branch outcomes (`chain.rs` 74-90).
`none` means the trace ended with the task still waiting. `msg` iterations
write and emit an OUT event and loop; a failed `Some(msg)` pattern
(`queueClosed`) only disables that branch; a completed shutdown receive runs
the write-half shutdown once and returns. -/
def writerRun : List WriterIn → Option WriterExit
  | [] => none
  | WriterIn.msg :: rest => writerRun rest
  | WriterIn.queueClosed :: rest => writerRun rest
  | WriterIn.shutdownOk :: _ => some { cleanups := 1, succeeded := true }
  | WriterIn.shutdownErr :: _ => some { cleanups := 1, succeeded := false }

/-- Counterexample to claim C7: after the outbound queue's sender side is
dropped while the writer is blocked waiting (the `queueClosed` outcome), the
writer task has not exited — the branch is merely disabled and the task
keeps waiting on the shutdown receiver. -/
theorem C7_counterexample_queue_closed :
    writerRun [WriterIn.queueClosed] = none := rfl

/-- Claim C7 (amended): dropping the outbound queue's sender side does not by
itself terminate the Writer; any trace of message and queue-closed outcomes
leaves the task running, and it exits (with one cleanup) exactly when the
shutdown signal is received. -/
theorem C7_writer_sender_drop (pre : List WriterIn)
    (h : ∀ x ∈ pre, x.isShutdown = false) :
    writerRun pre = none ∧
    writerRun (pre ++ [WriterIn.shutdownOk]) = some { cleanups := 1, succeeded := true } := by
  induction pre with
  | nil => exact ⟨rfl, rfl⟩
  | cons x tl ih =>
      have hx := h x (List.mem_cons_self x tl)
      have htl : ∀ y ∈ tl, y.isShutdown = false := fun y hy => h y (List.mem_cons_of_mem x hy)
      cases x with
      | msg => simpa [writerRun] using ih htl
      | queueClosed => simpa [writerRun] using ih htl
      | shutdownOk => simp [WriterIn.isShutdown] at hx
      | shutdownErr => simp [WriterIn.isShutdown] at hx

/-- Witness for C7 at a concrete queue-closed trace. -/
theorem C7_writer_sender_drop_witness :
    writerRun [WriterIn.msg, WriterIn.queueClosed] = none ∧
    writerRun ([WriterIn.msg, WriterIn.queueClosed] ++ [WriterIn.shutdownOk])
      = some { cleanups := 1, succeeded := true } :=
  C7_writer_sender_drop [WriterIn.msg, WriterIn.queueClosed] (by decide)

/-! ### The shutdown broadcast (`chain.rs` line 32 and 134-145)

The shutdown signal is a tokio broadcast channel of capacity 1.  Three
triggers race to fire it: the recorder's completion send, the timeout branch
and the ctrl-c branch of the final `select!`.  If two firings land before
some subscribed task polls its receiver, the capacity-1 ring has dropped the
older message and that receiver's `recv()` returns `Err(Lagged)`; every task
converts a receive error into a returned `HSError`. -/

/-- Outcome of polling a capacity-1 broadcast receiver that has seen `sent`
total sends and has already consumed `readPos` of them. -/
inductive RecvOutcome
  | pending
  | received
  | lagged
deriving DecidableEq

/-- Capacity-1 broadcast receive (tokio `broadcast::channel(1)` semantics):
nothing new is `pending`; exactly one outstanding message is `received`; two
or more outstanding messages mean the oldest was overwritten → `lagged`. -/
def broadcastRecv (sent readPos : Nat) : RecvOutcome :=
  if sent ≤ readPos then RecvOutcome.pending
  else if sent - readPos ≤ 1 then RecvOutcome.received
  else RecvOutcome.lagged

/-- The writer's shutdown arm (`chain.rs` 82-88): a completed receive shuts
the write half down once, then returns `Ok` for a received value and `Err`
for a receive error (`Lagged` included, via `From<RecvError> for HSError`). -/
def shutdownBranchExit : RecvOutcome → Option WriterExit
  | RecvOutcome.pending => none
  | RecvOutcome.received => some { cleanups := 1, succeeded := true }
  | RecvOutcome.lagged => some { cleanups := 1, succeeded := false }

/-- Counterexample to claim C9: if the shutdown signal is fired twice before
a task polls its capacity-1 receiver, that receiver observes `Lagged` and the
task returns a failure — a second firing is not always a harmless no-op. -/
theorem C9_counterexample_double_fire :
    broadcastRecv 2 0 = RecvOutcome.lagged ∧
    shutdownBranchExit (broadcastRecv 2 0) = some { cleanups := 1, succeeded := false } :=
  ⟨rfl, rfl⟩

/-- Claim C9 (amended): a task that has at most one unconsumed firing exits
cleanly with exactly one cleanup, later firings are no-ops for a task that
already consumed the signal, and no writer trace ever executes cleanup more
than once; but when two or more firings accumulate before a task polls its
capacity-1 receiver, the task observes `Lagged` and returns a failure. -/
theorem C9_shutdown_idempotence (s r : Nat) :
    (s = r + 1 → shutdownBranchExit (broadcastRecv s r) = some { cleanups := 1, succeeded := true }) ∧
    (s ≤ r → shutdownBranchExit (broadcastRecv s r) = none) ∧
    (r + 2 ≤ s → shutdownBranchExit (broadcastRecv s r) = some { cleanups := 1, succeeded := false }) ∧
    (∀ inputs w, writerRun inputs = some w → w.cleanups = 1) := by
  refine ⟨?_, ?_, ?_, ?_⟩
  · intro hs
    have h1 : ¬ s ≤ r := by omega
    have h2 : s - r ≤ 1 := by omega
    simp [broadcastRecv, h1, h2, shutdownBranchExit]
  · intro hs
    simp [broadcastRecv, hs, shutdownBranchExit]
  · intro hs
    have h1 : ¬ s ≤ r := by omega
    have h2 : ¬ s - r ≤ 1 := by omega
    simp [broadcastRecv, h1, h2, shutdownBranchExit]
  · intro inputs
    induction inputs with
    | nil => intro w hw; cases hw
    | cons x tl ih =>
        intro w hw
        cases x with
        | msg => exact ih w hw
        | queueClosed => exact ih w hw
        | shutdownOk => cases hw; rfl
        | shutdownErr => cases hw; rfl

/-- Witness for C9 at one firing consumed from position 0. -/
theorem C9_shutdown_idempotence_witness :
    shutdownBranchExit (broadcastRecv 1 0) = some { cleanups := 1, succeeded := true } :=
  (C9_shutdown_idempotence 1 0).1 rfl

/-! ### The Handshake Orchestrator (`chain.rs` lines 30-154)

`perform_btc_handshake` is modelled as its trace of orchestration steps in
program order together with the final result.  The environment carries the
outcomes of the fallible external interactions: the timed TCP connect and
the three joined task results. -/

/-- The three spawned long-running tasks. -/
inductive OrchTask
  | recorder
  | writer
  | reader
deriving DecidableEq

/-- One orchestration step of `perform_btc_handshake`, in program order. -/
inductive OrchStep
  | spawn (t : OrchTask)
  | connectAttempt
  | sendVersion
  | raceShutdown
  | joinTasks
deriving DecidableEq

/-- True exactly on task-spawn steps. -/
def OrchStep.isSpawn : OrchStep → Bool
  | OrchStep.spawn _ => true
  | _ => false

/-- Environment of one run: outcome of the timed TCP connect and the three
task join results. -/
structure RunEnv where
  connectRes : Except HSError Unit
  chainRes : Except HSError EventChain
  writerRes : Except HSError Unit
  readerRes : Except HSError Unit

/-- Result folding at the end of `perform_btc_handshake` (`chain.rs`
147-153): `message_writer_res?` then `msg_reader_res?` then the event chain
result. -/
def foldOutcomes (chainRes : Except HSError EventChain)
    (writerRes readerRes : Except HSError Unit) : Except HSError EventChain :=
  match writerRes with
  | Except.error e => Except.error e
  | Except.ok _ =>
      match readerRes with
      | Except.error e => Except.error e
      | Except.ok _ => chainRes

/-- Control-flow model of `perform_btc_handshake` (`chain.rs` 30-154): the
recorder task is spawned first (line 39), then the timed connect runs (line
61); a connect failure returns its error at once, otherwise the writer and
reader tasks are spawned, the initial version message is enqueued, the
shutdown race runs, and the joined outcomes are folded. -/
def perform_btc_handshake (env : RunEnv) : List OrchStep × Except HSError EventChain :=
  match env.connectRes with
  | Except.error e =>
      ([OrchStep.spawn OrchTask.recorder, OrchStep.connectAttempt], Except.error e)
  | Except.ok _ =>
      ([OrchStep.spawn OrchTask.recorder, OrchStep.connectAttempt,
        OrchStep.spawn OrchTask.writer, OrchStep.spawn OrchTask.reader,
        OrchStep.sendVersion, OrchStep.raceShutdown, OrchStep.joinTasks],
       foldOutcomes env.chainRes env.writerRes env.readerRes)

/-- Claim C5: once the tasks were started and joined, a Writer error makes
the run fail with that error, otherwise a reader-pipeline error makes it
fail with that error — in both cases whatever the Recorder produced is
discarded — and when both are clean the run returns exactly the Recorder's
outcome, whether or not the chain is complete. -/
theorem C5_result_folding (env : RunEnv) (hconn : env.connectRes = Except.ok ()) :
    (∀ e, env.writerRes = Except.error e →
        (perform_btc_handshake env).2 = Except.error e) ∧
    (∀ e, env.writerRes = Except.ok () → env.readerRes = Except.error e →
        (perform_btc_handshake env).2 = Except.error e) ∧
    (env.writerRes = Except.ok () → env.readerRes = Except.ok () →
        (perform_btc_handshake env).2 = env.chainRes) := by
  refine ⟨?_, ?_, ?_⟩
  · intro e hw
    simp [perform_btc_handshake, hconn, foldOutcomes, hw]
  · intro e hw hr
    simp [perform_btc_handshake, hconn, foldOutcomes, hw, hr]
  · intro hw hr
    simp [perform_btc_handshake, hconn, foldOutcomes, hw, hr]

/-- Witness for C5: clean writer and reader hand back the recorder's chain
even though its completion flag is false. -/
theorem C5_result_folding_witness :
    (perform_btc_handshake
        { connectRes := Except.ok (), chainRes := Except.ok (EventChain.new "peer"),
          writerRes := Except.ok (), readerRes := Except.ok () }).2
      = Except.ok (EventChain.new "peer") :=
  (C5_result_folding _ rfl).2.2 rfl rfl

/-- Counterexample to claim C6: when the initial connect fails, the run does
abort with the connection error, but the Recorder task has already been
spawned — it is not true that no task was started. -/
theorem C6_counterexample_recorder_spawned :
    (perform_btc_handshake
        { connectRes := Except.error { err_message := "connection timed out" },
          chainRes := Except.ok (EventChain.new "93.184.216.34:8333"),
          writerRes := Except.ok (), readerRes := Except.ok () }).2
      = Except.error { err_message := "connection timed out" } ∧
    OrchStep.spawn OrchTask.recorder ∈
      (perform_btc_handshake
        { connectRes := Except.error { err_message := "connection timed out" },
          chainRes := Except.ok (EventChain.new "93.184.216.34:8333"),
          writerRes := Except.ok (), readerRes := Except.ok () }).1 := by
  refine ⟨rfl, ?_⟩
  simp [perform_btc_handshake]

/-- Claim C6 (amended): a failed or timed-out initial connect aborts the run
with the connection error before the Writer or Reader task is spawned; the
Recorder task, spawned before the connect, is the only task started. -/
theorem C6_connect_failure (env : RunEnv) (e : HSError)
    (h : env.connectRes = Except.error e) :
    perform_btc_handshake env
      = ([OrchStep.spawn OrchTask.recorder, OrchStep.connectAttempt], Except.error e) ∧
    (perform_btc_handshake env).1.filter (fun s => OrchStep.isSpawn s)
      = [OrchStep.spawn OrchTask.recorder] := by
  have hrun : perform_btc_handshake env
      = ([OrchStep.spawn OrchTask.recorder, OrchStep.connectAttempt], Except.error e) := by
    simp [perform_btc_handshake, h]
  refine ⟨hrun, ?_⟩
  rw [hrun]
  rfl

/-- Witness for C6 at a concrete failing connect. -/
theorem C6_connect_failure_witness :
    perform_btc_handshake
        { connectRes := Except.error { err_message := "connection refused" },
          chainRes := Except.ok (EventChain.new "p"),
          writerRes := Except.ok (), readerRes := Except.ok () }
      = ([OrchStep.spawn OrchTask.recorder, OrchStep.connectAttempt],
         Except.error { err_message := "connection refused" }) :=
  (C6_connect_failure _ _ rfl).1

/-! ### Protocol messages and the Inbound Dispatcher (`chain.rs` 156-184)

`RawNetworkMessage` comes from the external `bitcoin` codec crate: a network
magic plus a payload variant.  The dispatcher only distinguishes `Version`,
`Verack` and everything else. -/

/-- Network address record carried inside a version message (the `bitcoin`
crate's `p2p::Address`): service flags, IPv4 address and port. -/
structure NetAddr where
  services : Nat
  addr : Nat × Nat × Nat × Nat
  port : Nat
deriving DecidableEq

/-- Payload of a version message (the `bitcoin` crate's `VersionMessage`). -/
structure VersionMsgData where
  version : Nat
  services : Nat
  timestamp : Int
  receiver : NetAddr
  sender : NetAddr
  nonce : Nat
  user_agent : String
  start_height : Int
deriving DecidableEq

/-- Decoded message payload variants the dispatcher distinguishes. -/
inductive NetworkMessage
  | version (v : VersionMsgData)
  | verack
  | other (cmd : String)
deriving DecidableEq

/-- Raw network message of the external codec: magic plus payload. -/
structure RawNetworkMessage where
  magic : Nat
  payload : NetworkMessage
deriving DecidableEq

/-- Command tag of a message (`RawNetworkMessage::cmd`). -/
def RawNetworkMessage.cmd (m : RawNetworkMessage) : String :=
  match m.payload with
  | NetworkMessage.version _ => "version"
  | NetworkMessage.verack => "verack"
  | NetworkMessage.other c => c

/-- Magic of `Network::Bitcoin` in the `bitcoin` crate. -/
def bitcoinMagic : Nat := 0xD9B4BEF9

/-- Outbound verack reply, from `chain.rs` (`verack_message`). -/
def verack_message : RawNetworkMessage :=
  { magic := bitcoinMagic, payload := NetworkMessage.verack }

/-- Warning marker from `types.rs` (`HS_WRNG`). -/
def HS_WRNG : String := "⚠️"

/-- Effects of one dispatcher invocation: the events sent on the event
channel, the replies sent on the outbound channel, the diagnostic lines
printed, and the returned result. -/
structure DispatchOut where
  events : List Event
  replies : List RawNetworkMessage
  warnings : List String
  result : Except HSError Unit

/-- The Inbound Dispatcher, from `chain.rs` (`handle_message`, lines
156-184).  Channel sends are modelled as succeeding: in a run the recorder
holds the event receiver and the writer holds the outbound receiver for the
whole loop.  On `Verack` it publishes one IN event; on `Version` it
publishes one IN event carrying the `vers` and `user-agent` attributes and
enqueues the verack reply; on anything else it prints a warning and returns
`Ok` without publishing or replying. -/
def handle_message (message : RawNetworkMessage) : DispatchOut :=
  let msg_type := message.cmd
  match message.payload with
  | NetworkMessage.verack =>
      { events := [Event.new msg_type EventDirection.IN], replies := [],
        warnings := [], result := Except.ok () }
  | NetworkMessage.version v =>
      { events := [((Event.new msg_type EventDirection.IN).set_pair
            "vers" (toString v.version)).set_pair "user-agent" v.user_agent],
        replies := [verack_message], warnings := [], result := Except.ok () }
  | NetworkMessage.other _ =>
      { events := [], replies := [],
        warnings := [HS_WRNG ++ "  received message type not part of handshake: " ++ msg_type],
        result := Except.ok () }

/-- Claim C2: a Verack publishes exactly one IN event and enqueues no reply;
a Version publishes exactly one IN event carrying the `vers` (protocol
version as a string) and `user-agent` attributes and then enqueues one
outbound Verack; any other payload publishes nothing, replies nothing and
returns success with only a diagnostic. -/
theorem C2_dispatcher_cases (m : RawNetworkMessage) :
    (m.payload = NetworkMessage.verack →
      handle_message m
        = { events := [{ name := "verack", direction := EventDirection.IN, data_pairs := [] }],
            replies := [], warnings := [], result := Except.ok () }) ∧
    (∀ v, m.payload = NetworkMessage.version v →
      handle_message m
        = { events :=
              [{ name := "version", direction := EventDirection.IN,
                 data_pairs := [("vers", toString v.version), ("user-agent", v.user_agent)] }],
            replies := [verack_message], warnings := [], result := Except.ok () }) ∧
    (∀ c, m.payload = NetworkMessage.other c →
      (handle_message m).events = [] ∧ (handle_message m).replies = [] ∧
      (handle_message m).result = Except.ok ()) := by
  obtain ⟨mg, p⟩ := m
  refine ⟨?_, ?_, ?_⟩
  · intro h
    simp only at h
    subst h
    rfl
  · intro v h
    simp only at h
    subst h
    rfl
  · intro c h
    simp only at h
    subst h
    exact ⟨rfl, rfl, rfl⟩

/-- Witness for C2 at a concrete inbound verack. -/
theorem C2_dispatcher_witness :
    handle_message { magic := bitcoinMagic, payload := NetworkMessage.verack }
      = { events := [{ name := "verack", direction := EventDirection.IN, data_pairs := [] }],
          replies := [], warnings := [], result := Except.ok () } :=
  (C2_dispatcher_cases { magic := bitcoinMagic, payload := NetworkMessage.verack }).1 rfl

/-! ### Process output and exit code (`main.rs` and the Display impls)

`perform_handshake` wraps the spawned handshake task's join result into a
`HandshakeResult`; `main` prints that result and exits 1 only when the join
itself failed — a failed handshake is still printed from the `Ok` branch. -/

/-- Success marker from `types.rs` (`HS_OK`). -/
def HS_OK : String := "🟩"

/-- Failure marker from `types.rs` (`HS_NOK`). -/
def HS_NOK : String := "🔴"

/-- Inbound direction marker from `types.rs` (`HS_IN`). -/
def HS_IN : String := "<<<<"

/-- Outbound direction marker from `types.rs` (`HS_OUT`). -/
def HS_OUT : String := ">>>"

/-- Timeout marker from `types.rs` (`HS_TO`). -/
def HS_TO : String := "🕐"

/-- Display of one event (`types.rs`, `impl Display for Event`). -/
def displayEvent (e : Event) : String :=
  let dir := match e.direction with
    | EventDirection.IN => HS_IN
    | EventDirection.OUT => HS_OUT
  let base := e.name ++ " " ++ dir
  if e.data_pairs.isEmpty then base
  else base ++ " (" ++ String.intercalate " " (e.data_pairs.map (fun p => p.1 ++ ":" ++ p.2)) ++ ")"

/-- Single-line display of an event chain (`types.rs`, `impl Display for
EventChain`); the `Instant`-based elapsed-time decorations are real time and
are omitted from the embedding. -/
def displayEventChain (c : EventChain) : String :=
  (if c.is_complete then HS_OK else HS_TO) ++ " - " ++ c.id ++ " || "
    ++ String.intercalate " --> " (c.events.map displayEvent) ++ " || total time."

/-- Display of a handshake result (`types.rs`, `impl Display for
HandshakeResult`): the chain line on success, the failure line otherwise. -/
def displayHandshakeResult (id : String) (r : Except HSError EventChain) : String :=
  match r with
  | Except.ok c => displayEventChain c
  | Except.error e => HS_NOK ++ " " ++ id ++ ": Handshake Error: " ++ e.err_message

/-- Model of `main.rs` (lines 8-27): the argument is the join result of the
spawned handshake task; the value is the list of printed result lines and
the process exit code.  The `Ok` branch prints the `HandshakeResult` —
success line or failure line — and exits 0; only a failed join prints the
error and exits 1. -/
def mainRun (joinRes : Except HSError (Except HSError EventChain)) (id : String) :
    List String × Nat :=
  match joinRes with
  | Except.ok handshakeRes => ([displayHandshakeResult id handshakeRes], 0)
  | Except.error e => (["Handshake Error: " ++ e.err_message], 1)

/-- Counterexample to claim C8: a run whose handshake failed prints the
failure line yet exits with code 0 — the non-zero exit is reserved for a
failed task join, not for a failed handshake. -/
theorem C8_counterexample_exit_code :
    mainRun (Except.ok (Except.error { err_message := "connection refused" })) "93.184.216.34:8333"
      = ([HS_NOK ++ " 93.184.216.34:8333: Handshake Error: connection refused"], 0) := rfl

/-- Claim C8 (amended): every run prints exactly one result line; the exit
code is 0 whenever the spawned handshake task is joined — including when the
handshake itself failed, whose failure line is printed with exit code 0 —
and 1 exactly when the join fails; unrecognized inbound message types only
produce a warning diagnostic, never an event or a failure. -/
theorem C8_output_and_exit (joinRes : Except HSError (Except HSError EventChain)) (id : String) :
    (mainRun joinRes id).1.length = 1 ∧
    (∀ r, joinRes = Except.ok r → (mainRun joinRes id).2 = 0) ∧
    (∀ e, joinRes = Except.error e → (mainRun joinRes id).2 = 1) ∧
    (∀ m c, m.payload = NetworkMessage.other c →
      (handle_message m).result = Except.ok () ∧ (handle_message m).events = []) := by
  refine ⟨?_, ?_, ?_, ?_⟩
  · cases joinRes <;> rfl
  · intro r h
    subst h
    rfl
  · intro e h
    subst h
    rfl
  · intro m c h
    obtain ⟨mg, p⟩ := m
    simp only at h
    subst h
    exact ⟨rfl, rfl⟩

/-- Witness for C8: a successfully joined run that carried a failed
handshake exits 0 after printing its single line. -/
theorem C8_output_and_exit_witness :
    (mainRun (Except.ok (Except.error { err_message := "connection refused" })) "peer").2 = 0 :=
  (C8_output_and_exit (Except.ok (Except.error { err_message := "connection refused" })) "peer").2.1
    (Except.error { err_message := "connection refused" }) rfl

/-! ### The wire codec and the Message Framer (`chain.rs` 186-216)

`MessageReader::read_message` keeps a growable byte buffer, first tries the
external codec's partial deserialization on it, and only reads from the
stream when no complete frame is parsable.  The codec
(`deserialize_partial::<RawNetworkMessage>` of the `bitcoin` crate) is
modelled at the wire-frame level: a frame is a 4-byte little-endian magic, a
12-byte command, a 4-byte payload length, a 4-byte payload checksum and the
payload.  The reader runs the codec behind `if let Ok(..)`, so decode errors
and "insufficient data" are treated alike; `try_decode` returns `none` for
both.  The concrete digest used for the checksum bytes is immaterial to the
framer — only that encoder and decoder agree on it. -/

/-- Little-endian four-byte encoding of a 32-bit value. -/
def u32LE (n : Nat) : List Nat :=
  [n % 256, n / 256 % 256, n / 65536 % 256, n / 16777216 % 256]

/-- Little-endian read of the first four bytes of a buffer (0 past the end). -/
def readU32LE (b : List Nat) : Nat :=
  b.getD 0 0 + 256 * b.getD 1 0 + 65536 * b.getD 2 0 + 16777216 * b.getD 3 0

/-- Four-byte payload checksum of the codec, as a digest fold. -/
def checksum4 (payload : List Nat) : List Nat :=
  u32LE (payload.foldl (fun a x => (a * 31 + x + 1) % 4294967296) 0)

/-- Wire frame of the external codec: magic, command and payload. -/
structure Frame where
  magic : Nat
  command : List Nat
  payload : List Nat
deriving DecidableEq

/-- Well-formedness of a frame: 32-bit magic, 12-byte command, payload
length expressible in the 32-bit length field. -/
def Frame.wf (f : Frame) : Prop :=
  f.magic < 4294967296 ∧ f.command.length = 12 ∧ f.payload.length < 4294967296

/-- Serialization of a frame (the codec's `serialize`): 24-byte header then
the payload. -/
def encodeFrame (f : Frame) : List Nat :=
  u32LE f.magic ++ f.command ++ u32LE f.payload.length ++ checksum4 f.payload ++ f.payload

/-- Partial deserialization as used by the reader: a fully parsed frame plus
consumed byte count, or `none` when the buffer has no complete valid frame
at its front (insufficient data and decode errors alike, matching the
reader's `if let Ok(..)` use). -/
def try_decode (b : List Nat) : Option (Frame × Nat) :=
  if b.length < 24 then none
  else if b.length < 24 + readU32LE (b.drop 16) then none
  else if checksum4 ((b.drop 24).take (readU32LE (b.drop 16))) = (b.drop 20).take 4 then
    some ({ magic := readU32LE b,
            command := (b.drop 4).take 12,
            payload := (b.drop 24).take (readU32LE (b.drop 16)) },
          24 + readU32LE (b.drop 16))
  else none

lemma u32LE_length (n : Nat) : (u32LE n).length = 4 := rfl

lemma checksum4_length (p : List Nat) : (checksum4 p).length = 4 := rfl

lemma readU32LE_u32LE_append (n : Nat) (h : n < 4294967296) (r : List Nat) :
    readU32LE (u32LE n ++ r) = n := by
  simp only [u32LE, readU32LE, List.cons_append, List.nil_append,
    List.getD_cons_zero, List.getD_cons_succ]
  omega

lemma readU32LE_take (b : List Nat) (k : Nat) (h : 4 ≤ k) :
    readU32LE (b.take k) = readU32LE b := by
  unfold readU32LE
  have hgd : ∀ i, i < k → (b.take k).getD i 0 = b.getD i 0 := by
    intro i hi
    rw [List.getD_eq_getElem?_getD, List.getD_eq_getElem?_getD, List.getElem?_take,
      if_pos hi]
  rw [hgd 0 (by omega), hgd 1 (by omega), hgd 2 (by omega), hgd 3 (by omega)]

lemma encodeFrame_length (f : Frame) (hcmd : f.command.length = 12) :
    (encodeFrame f).length = 24 + f.payload.length := by
  simp [encodeFrame, u32LE, checksum4, hcmd]
  omega

lemma encodeFrame_append (f : Frame) (rest : List Nat) :
    encodeFrame f ++ rest
      = u32LE f.magic ++ (f.command ++ (u32LE f.payload.length
          ++ (checksum4 f.payload ++ (f.payload ++ rest)))) := by
  simp [encodeFrame, List.append_assoc]

lemma encodeFrame_drop4 (f : Frame) (rest : List Nat) :
    (encodeFrame f ++ rest).drop 4
      = f.command ++ (u32LE f.payload.length
          ++ (checksum4 f.payload ++ (f.payload ++ rest))) := by
  rw [encodeFrame_append]
  exact List.drop_left' (u32LE_length f.magic)

lemma encodeFrame_drop16 (f : Frame) (rest : List Nat) (hcmd : f.command.length = 12) :
    (encodeFrame f ++ rest).drop 16
      = u32LE f.payload.length ++ (checksum4 f.payload ++ (f.payload ++ rest)) := by
  rw [encodeFrame_append, ← List.append_assoc]
  refine List.drop_left' ?_
  simp [u32LE, hcmd]

lemma encodeFrame_drop20 (f : Frame) (rest : List Nat) (hcmd : f.command.length = 12) :
    (encodeFrame f ++ rest).drop 20
      = checksum4 f.payload ++ (f.payload ++ rest) := by
  rw [encodeFrame_append, ← List.append_assoc, ← List.append_assoc]
  refine List.drop_left' ?_
  simp [u32LE, hcmd]

lemma encodeFrame_drop24 (f : Frame) (rest : List Nat) (hcmd : f.command.length = 12) :
    (encodeFrame f ++ rest).drop 24 = f.payload ++ rest := by
  rw [encodeFrame_append, ← List.append_assoc, ← List.append_assoc, ← List.append_assoc]
  refine List.drop_left' ?_
  simp [u32LE, checksum4, hcmd]

/-- Round trip of the codec model: a well-formed encoded frame at the front
of a buffer parses back to itself with its full length consumed. -/
lemma try_decode_encodeFrame (f : Frame) (hwf : f.wf) (rest : List Nat) :
    try_decode (encodeFrame f ++ rest) = some (f, 24 + f.payload.length) := by
  obtain ⟨hm, hcmd, hp⟩ := hwf
  have hlenE : (encodeFrame f).length = 24 + f.payload.length := encodeFrame_length f hcmd
  have hlen : (encodeFrame f ++ rest).length = 24 + f.payload.length + rest.length := by
    rw [List.length_append, hlenE]
  unfold try_decode
  have h24 : ¬ (encodeFrame f ++ rest).length < 24 := by omega
  rw [if_neg h24]
  have hplen : readU32LE ((encodeFrame f ++ rest).drop 16) = f.payload.length := by
    rw [encodeFrame_drop16 f rest hcmd]
    exact readU32LE_u32LE_append _ hp _
  rw [hplen]
  have h2 : ¬ (encodeFrame f ++ rest).length < 24 + f.payload.length := by omega
  rw [if_neg h2]
  have hpayload : ((encodeFrame f ++ rest).drop 24).take f.payload.length = f.payload := by
    rw [encodeFrame_drop24 f rest hcmd]
    exact List.take_left' rfl
  rw [hpayload]
  have hck : ((encodeFrame f ++ rest).drop 20).take 4 = checksum4 f.payload := by
    rw [encodeFrame_drop20 f rest hcmd]
    exact List.take_left' (checksum4_length _)
  rw [hck, if_pos rfl]
  have hmagic : readU32LE (encodeFrame f ++ rest) = f.magic := by
    rw [encodeFrame_append]
    exact readU32LE_u32LE_append _ hm _
  have hcommand : ((encodeFrame f ++ rest).drop 4).take 12 = f.command := by
    rw [encodeFrame_drop4]
    exact List.take_left' hcmd
  rw [hmagic, hcommand]

/-- A strict prefix of a well-formed encoded frame never parses: either the
24-byte header is incomplete, or the length field demands more bytes than
the prefix holds. -/
lemma try_decode_take_encodeFrame (f : Frame) (hwf : f.wf) (n : Nat)
    (hn : n < (encodeFrame f).length) :
    try_decode ((encodeFrame f).take n) = none := by
  obtain ⟨hm, hcmd, hp⟩ := hwf
  have hlenE : (encodeFrame f).length = 24 + f.payload.length := encodeFrame_length f hcmd
  have hlen : ((encodeFrame f).take n).length = n := by
    rw [List.length_take]
    omega
  unfold try_decode
  by_cases h24 : n < 24
  · rw [if_pos (by omega : ((encodeFrame f).take n).length < 24)]
  · rw [if_neg (by omega : ¬ ((encodeFrame f).take n).length < 24)]
    have hE16 : (encodeFrame f).drop 16
        = u32LE f.payload.length ++ (checksum4 f.payload ++ (f.payload ++ ([] : List Nat))) := by
      have h := encodeFrame_drop16 f [] hcmd
      rwa [List.append_nil] at h
    have hplen : readU32LE (((encodeFrame f).take n).drop 16) = f.payload.length := by
      rw [List.drop_take, readU32LE_take _ _ (by omega), hE16]
      exact readU32LE_u32LE_append _ hp _
    rw [hplen]
    rw [if_pos (by omega : ((encodeFrame f).take n).length < 24 + f.payload.length)]

/-- The message reader (`chain.rs` 198-215, `MessageReader::read_message`).
The stream is the list of chunks successive `read_buf` calls return; an
exhausted list — or an empty chunk — is a zero-byte read (closed stream).
The loop first tries to parse the buffer; on success it advances the buffer
by the consumed count and returns the message, otherwise it reads one chunk
and retries; a zero-byte read returns clean end-of-stream on an empty buffer
and a connection-reset error on a non-empty one. -/
def read_message : List Nat → List (List Nat) → Except HSError (Option Frame × List Nat)
  | buffer, reads =>
    match try_decode buffer with
    | some (message, count) => Except.ok (some message, buffer.drop count)
    | none =>
      match reads with
      | [] =>
          if buffer.isEmpty then Except.ok (none, buffer)
          else Except.error { err_message := "connection reset by peer" }
      | chunk :: rest =>
          if chunk.isEmpty then
            (if buffer.isEmpty then Except.ok (none, buffer)
             else Except.error { err_message := "connection reset by peer" })
          else read_message (buffer ++ chunk) rest

/-- Claim C3: a zero-byte stream read with an empty frame buffer makes
`read_message` return clean end-of-stream (`none`, not an error); a
zero-byte read with a non-empty, unparsable frame buffer makes it fail with
the connection-reset error.  Both the exhausted-stream and the empty-chunk
form of the zero-byte read are covered. -/
theorem C3_zero_byte_read (b : List Nat) (rest : List (List Nat)) :
    (read_message [] [] = Except.ok (none, [])) ∧
    (read_message [] ([] :: rest) = Except.ok (none, [])) ∧
    (b ≠ [] → try_decode b = none →
      read_message b [] = Except.error { err_message := "connection reset by peer" }) ∧
    (b ≠ [] → try_decode b = none →
      read_message b ([] :: rest)
        = Except.error { err_message := "connection reset by peer" }) := by
  have hbe : ∀ l : List Nat, l ≠ [] → l.isEmpty = false := by
    intro l hl
    cases l with
    | nil => exact absurd rfl hl
    | cons x xs => rfl
  refine ⟨rfl, rfl, ?_, ?_⟩
  · intro hne hdec
    rw [read_message, hdec]
    simp [hbe b hne]
  · intro hne hdec
    rw [read_message, hdec]
    simp [hbe b hne]

/-- Witness for C3: a one-byte buffer cannot parse, so a closed stream is a
connection reset there, while the empty buffer sees clean end-of-stream. -/
theorem C3_zero_byte_read_witness :
    read_message [0] [] = Except.error { err_message := "connection reset by peer" } :=
  (C3_zero_byte_read [0] []).2.2.1 (by decide) rfl

/-- Claim C4: a buffer holding a strict prefix of one serialized message
parses nothing (so the framer reads more), and once the remaining bytes
arrive the next parse yields the complete message with exactly its byte
count consumed, leaving the buffer empty; no byte is consumed before a
complete message parses. -/
theorem C4_partial_frame (f : Frame) (hwf : f.wf) (n : Nat)
    (hn : n < (encodeFrame f).length) :
    try_decode ((encodeFrame f).take n) = none ∧
    read_message ((encodeFrame f).take n) [(encodeFrame f).drop n]
      = Except.ok (some f, []) := by
  obtain ⟨hm, hcmd, hp⟩ := hwf
  have hpref := try_decode_take_encodeFrame f ⟨hm, hcmd, hp⟩ n hn
  refine ⟨hpref, ?_⟩
  have hchunk : ((encodeFrame f).drop n).isEmpty = false := by
    have : (encodeFrame f).drop n ≠ [] := by
      rw [ne_eq, List.drop_eq_nil_iff]
      omega
    cases h : (encodeFrame f).drop n with
    | nil => exact absurd h this
    | cons x xs => rfl
  rw [read_message, hpref]
  simp only [hchunk, Bool.false_eq_true, if_false, List.take_append_drop]
  have hfull := try_decode_encodeFrame f ⟨hm, hcmd, hp⟩ []
  rw [List.append_nil] at hfull
  rw [read_message, hfull]
  have hdrop : (encodeFrame f).drop (24 + f.payload.length) = [] := by
    rw [← encodeFrame_length f hcmd]
    exact List.drop_length _
  dsimp only
  rw [hdrop]

/-- Witness for C4: the first 12 bytes of an encoded empty-payload frame
parse to nothing, and appending the remaining 12 yields the frame back with
the buffer fully consumed. -/
theorem C4_partial_frame_witness :
    try_decode ((encodeFrame
        { magic := 0xD9B4BEF9,
          command := [118, 101, 114, 97, 99, 107, 0, 0, 0, 0, 0, 0],
          payload := [] }).take 12)
      = none ∧
    read_message ((encodeFrame
        { magic := 0xD9B4BEF9,
          command := [118, 101, 114, 97, 99, 107, 0, 0, 0, 0, 0, 0],
          payload := [] }).take 12)
      [(encodeFrame
        { magic := 0xD9B4BEF9,
          command := [118, 101, 114, 97, 99, 107, 0, 0, 0, 0, 0, 0],
          payload := [] }).drop 12]
      = Except.ok (some
          { magic := 0xD9B4BEF9,
            command := [118, 101, 114, 97, 99, 107, 0, 0, 0, 0, 0, 0],
            payload := [] }, []) :=
  C4_partial_frame
    { magic := 0xD9B4BEF9,
      command := [118, 101, 114, 97, 99, 107, 0, 0, 0, 0, 0, 0],
      payload := [] }
    ⟨by decide, by decide, by decide⟩ 12 (by decide)

/-! ### Building the version message (`chain.rs` 225-248)

`version_message` converts the destination string with
`SocketAddr::from_str(..).unwrap()`: when the string is not a literal socket
address the `unwrap` panics.  The Rust std parser is modelled for the IPv4
literal form `a.b.c.d:port` — the address universe every claim uses; DNS
host names (which the TCP connect path would happily resolve) are exactly
the strings it rejects. -/

/-- Decimal digit test. -/
def isDigitCh (c : Char) : Bool := '0' ≤ c && c ≤ '9'

/-- Numeric value of one decimal digit character. -/
def digitVal (c : Char) : Nat := c.toNat - '0'.toNat

/-- Value of a most-significant-first digit string. -/
def digitsVal (cs : List Char) : Nat := cs.foldl (fun a c => a * 10 + digitVal c) 0

/-- Split a character list at every occurrence of `sep`. -/
def splitOnCh (sep : Char) : List Char → List (List Char)
  | [] => [[]]
  | c :: rest =>
      let r := splitOnCh sep rest
      if c = sep then [] :: r
      else
        match r with
        | [] => [[c]]
        | g :: gs => (c :: g) :: gs

/-- One dotted-quad octet as accepted by Rust std's address parser: one to
three decimal digits, no leading zero, value at most 255. -/
def parseOctet (cs : List Char) : Option Nat :=
  if cs ≠ [] ∧ cs.length ≤ 3 ∧ cs.all isDigitCh ∧ (cs.head? = some '0' → cs = ['0'])
      ∧ digitsVal cs ≤ 255 then
    some (digitsVal cs)
  else none

/-- Port number as accepted by Rust std's address parser: at most five
decimal digits, value at most 65535. -/
def parsePort (cs : List Char) : Option Nat :=
  if cs ≠ [] ∧ cs.length ≤ 5 ∧ cs.all isDigitCh ∧ digitsVal cs ≤ 65535 then
    some (digitsVal cs)
  else none

/-- Dotted-quad IPv4 literal. -/
def parseIPv4 (cs : List Char) : Option (Nat × Nat × Nat × Nat) :=
  match splitOnCh '.' cs with
  | [a, b, c, d] =>
      match parseOctet a, parseOctet b, parseOctet c, parseOctet d with
      | some x, some y, some z, some w => some (x, y, z, w)
      | _, _, _, _ => none
  | _ => none

/-- Model of Rust std `SocketAddr::from_str` on the IPv4 literal form
`a.b.c.d:port`.  Everything else — a DNS host name with port, a missing
port, a value out of range — yields `none`, the strings on which the
source's `unwrap` panics. -/
def SocketAddr_from_str (s : String) : Option ((Nat × Nat × Nat × Nat) × Nat) :=
  match splitOnCh ':' s.data with
  | [host, port] =>
      match parseIPv4 host, parsePort port with
      | some ip, some p => some (ip, p)
      | _, _ => none
  | _ => none

/-- Protocol version constant of the `bitcoin` crate (`PROTOCOL_VERSION`),
set by `VersionMessage::new`. -/
def PROTOCOL_VERSION : Nat := 70001

/-- Model of `chain.rs` `version_message` (lines 225-248).  The system-clock
read is the `now` parameter.  The source unwraps `SocketAddr::from_str` on
the destination string; the failed parse, where the source panics, is
`none`. -/
def version_message (now : Nat) (dest_socket : String) (user_agent : String) :
    Option RawNetworkMessage :=
  match SocketAddr_from_str dest_socket with
  | none => none
  | some (ip, port) =>
      some { magic := bitcoinMagic,
             payload := NetworkMessage.version
               { version := PROTOCOL_VERSION, services := 0, timestamp := (now : Int),
                 receiver := { services := 0, addr := ip, port := port },
                 sender := { services := 0, addr := (0, 0, 0, 0), port := 0 },
                 nonce := now, user_agent := user_agent, start_height := 0 } }

/-- Claim C10: `version_message` panics (returns no message) exactly when
the destination string fails to parse as a literal socket address; a DNS
host name with port is such a failing string, while a literal IPv4 address
with port parses and yields the message. -/
theorem C10_version_message_unwrap (now : Nat) (dest ua : String) :
    (version_message now dest ua = none ↔ SocketAddr_from_str dest = none) ∧
    SocketAddr_from_str "example.com:8333" = none ∧
    version_message 0 "example.com:8333" "/custom-agent/" = none ∧
    (SocketAddr_from_str "93.184.216.34:8333").isSome = true ∧
    (version_message 0 "93.184.216.34:8333" "/custom-agent/").isSome = true := by
  refine ⟨?_, by decide, by decide, by decide, by decide⟩
  rcases h : SocketAddr_from_str dest with _ | ⟨ip, port⟩
  · simp [version_message, h]
  · simp [version_message, h]

end BtcHS
